import Mathlib

/-!
Shallow embedding of `src/cog_saver.py` (CoG Saver, a save manager for
Choice of Games titles).  Filesystem paths are modelled as lists of
components, the filesystem as a partial map from paths to text content,
and each Qt slot of the `CoGSaver` class as a pure state-transition
function that additionally reports a status and the list of file
operations it attempted.
-/

namespace CoGSaver

/-- A filesystem path, as its list of components (`pathlib.Path`). -/
abbrev PyPath := List String

/-- `Path.parent`: drop the final component. -/
def pathParent (p : PyPath) : PyPath := p.dropLast

/-- `parent / name`: append one component. -/
def pathChild (p : PyPath) (s : String) : PyPath := p ++ [s]

/-- `Path.name`: the final component (empty for the empty path). -/
def pathName (p : PyPath) : String := p.getLast?.getD ""

/-- `str.endswith(suffix)` from Python, on Lean strings. -/
def pyEndsWith (s suffix : String) : Bool := suffix.data.isSuffixOf s.data

/-- The filesystem as the copy operations see it: decoded text content of
each existing file.  The transfer operations copy content opaquely, so this
level is adequate for them; the read path of `_parse_save`, where UTF-8
decoding can fail on arbitrary bytes, is additionally modelled
byte-faithfully below (`ByteFS`, `utf8Decode`, `parse_save_raw`). -/
abbrev FS := PyPath → Option String

/-- A raw file content: its byte values. -/
abbrev Bytes := List Nat

/-- The filesystem at the byte level, as `open` really sees it. -/
abbrev ByteFS := PyPath → Option Bytes

/-- The fields of `datetime.now()` that the formats in the program use. -/
structure PyDateTime where
  year : Nat
  month : Nat
  day : Nat
  hour : Nat
  minute : Nat
  deriving DecidableEq, Repr

/-- Zero-padded two-digit decimal rendering (strftime `%m`, `%d`, `%H`, `%M`). -/
def pad2 (n : Nat) : String := if n < 10 then "0" ++ toString n else toString n

/-- `datetime.now().strftime("%y.%m.%d %H.%M")` (line 237/254 of the source). -/
def strftimeSaveStamp (t : PyDateTime) : String :=
  pad2 (t.year % 100) ++ "." ++ pad2 t.month ++ "." ++ pad2 t.day ++ " "
    ++ pad2 t.hour ++ "." ++ pad2 t.minute

/-- The mutable fields of the `CoGSaver` window that the core logic touches. -/
structure SaverState where
  save_location : Option PyPath
  save_folder : Option PyPath
  quick_save_location : Option PyPath
  saves_list : List PyPath
  messages : List String
  deriving DecidableEq, Repr

/-- `_append_message` (timestamp prefix and newline replacement elided:
only presence and order of messages is modelled). -/
def appendMessage (s : SaverState) (m : String) : SaverState :=
  { s with messages := s.messages ++ [m] }

/-- Outcomes of the OS calls the program makes, supplied as an oracle. -/
structure Env where
  dirExists : PyPath → Bool
  resolveFn : PyPath → Option PyPath
  mkdirOk : PyPath → Bool
  dirEntries : PyPath → List String
  readFails : PyPath → Bool
  now : PyDateTime

/-- A file operation attempted by one of the slots. -/
inductive FsAction where
  | copyFile (src dst : PyPath)
  | readFile (p : PyPath)
  deriving DecidableEq, Repr

/-- Status outcome of a transfer operation (the program reports these as
messages; the constructors name the spec's error taxonomy). -/
inductive OpStatus where
  | noLiveSaveSelected
  | noop
  | quicksaved
  | quicksaveFailed
  | loaded
  | loadFailed
  | noQuickSaveFound
  | saved
  | saveFailed
  deriving DecidableEq, Repr

/-- Status outcome of `_change_game`. -/
inductive SelectResult where
  | cancelled
  | selected
  | invalidSaveFileSelected
  deriving DecidableEq, Repr

/-- `shutil.copy2(src, dst)`: succeeds iff the source exists, overwriting
the destination with the source's content. -/
def copy2 (fs : FS) (src dst : PyPath) : Option FS :=
  match fs src with
  | some content => some (fun p => if p = dst then some content else fs p)
  | none => none

/-- Characters matched by the regex class `\s` (ASCII range). -/
def reSpace (c : Char) : Bool :=
  c = ' ' || c = '\t' || c = '\n' || c = '\r' || c = Char.ofNat 11 || c = Char.ofNat 12

/-- Match a literal character sequence at the head, returning the rest. -/
def dropLit : List Char → List Char → Option (List Char)
  | [], s => some s
  | _ :: _, [] => none
  | c :: cs, d :: ds => if c = d then dropLit cs ds else none

/-- Match the pattern `"<field>"\s*:\s*"([^"]+)"` at the head of `s`,
returning the captured group (lines 243 and 247 of the source). -/
def matchFieldAt (field : List Char) (s : List Char) : Option (List Char) :=
  match dropLit ('"' :: field ++ ['"']) s with
  | none => none
  | some r1 =>
    match r1.dropWhile reSpace with
    | ':' :: r2 =>
      match r2.dropWhile reSpace with
      | '"' :: r3 =>
        let v := r3.takeWhile (fun c => c != '"')
        if v = [] then none
        else
          match r3.dropWhile (fun c => c != '"') with
          | '"' :: _ => some v
          | _ => none
      | _ => none
    | _ => none

/-- One step of `re.search` for `"(?:name|firstname)"\s*:\s*"([^"]+)"`:
the attempt at a single start position, alternatives in pattern order. -/
def searchStep (s : List Char) : Option (List Char) :=
  match matchFieldAt "name".data s with
  | some v => some v
  | none => matchFieldAt "firstname".data s

/-- `re.search(r'"(?:name|firstname)"\s*:\s*"([^"]+)"', content)` (line 243):
scan start positions left to right, at each trying `name` then `firstname`. -/
def reSearchNameField : List Char → Option (List Char)
  | [] => none
  | c :: cs =>
    match matchFieldAt "name".data (c :: cs) with
    | some v => some v
    | none =>
      match matchFieldAt "firstname".data (c :: cs) with
      | some v => some v
      | none => reSearchNameField cs

/-- `re.search(r'"sceneName"\s*:\s*"([^"]+)"', content)` (line 247). -/
def reSearchSceneField : List Char → Option (List Char)
  | [] => none
  | c :: cs =>
    match matchFieldAt "sceneName".data (c :: cs) with
    | some v => some v
    | none => reSearchSceneField cs

/-- Index of the last `'.'` in the list, if any (`str.rfind('.')`). -/
def lastDotIndex : List Char → Option Nat
  | [] => none
  | c :: cs =>
    match lastDotIndex cs with
    | some i => some (i + 1)
    | none => if c = '.' then some 0 else none

/-- `PurePath.suffix` of a final component: `name[i:]` for `i = name.rfind('.')`
when `0 < i < len(name) - 1`, else empty. -/
def pySuffix (name : List Char) : List Char :=
  match lastDotIndex name with
  | some i => if 0 < i ∧ i + 1 < name.length then name.drop i else []
  | none => []

/-- Lines 284-285 of the source: `if not save_file.suffix:
save_file = save_file.with_suffix(".cogsav")`, on the final component. -/
def finalizeSaveName (name : String) : String :=
  if pySuffix name.data = [] then name ++ ".cogsav" else name

/-- The same adjustment applied to a whole path. -/
def fixTarget (target : PyPath) : PyPath :=
  if pySuffix (pathName target).data = [] then
    pathParent target ++ [pathName target ++ ".cogsav"]
  else target

/-- Whether a directory entry matches `Path.glob("*.cogsav")` (line 162;
`pathlib` glob matching is a case-sensitive suffix test here, and unlike the
`glob` module it does not exclude dotfiles). -/
def globCogsav (n : String) : Bool := pyEndsWith n ".cogsav"

/-- `_generate_saves_list` (lines 159-165). -/
def generate_saves_list (env : Env) (s : SaverState) : SaverState :=
  match s.save_folder with
  | none => s
  | some folder =>
    if env.dirExists folder then
      let files := ((env.dirEntries folder).filter globCogsav).map (pathChild folder)
      { s with
        saves_list := files,
        messages := s.messages
          ++ files.map (fun f => "Found file: " ++ pathName f)
          ++ ["Found " ++ toString files.length ++ " files."] }
    else s

/-- The message of the `else` branch of `_update_game` (lines 152-157). -/
def noGameMessage (s : SaverState) : SaverState :=
  appendMessage s "No game selected! Please select a save file location!"

/-- `_update_game` (lines 136-157).  The `try` block assigns
`save_location`, `save_folder` and `quick_save_location` in order, so an
`OSError` raised by `resolve` or `mkdir` leaves the later fields at their
prior values. -/
def update_game (env : Env) (fs : FS) (s : SaverState) : SaverState :=
  match s.save_location with
  | none => noGameMessage s
  | some loc =>
    if (fs loc).isSome then
      match env.resolveFn loc with
      | none =>
        appendMessage (appendMessage s "Error: resolve failed")
          "Failed to use the save location as a base file!"
      | some r =>
        let folder := pathChild (pathParent r) "saves"
        let s1 := { s with save_location := some r, save_folder := some folder }
        if env.mkdirOk folder then
          let s2 := appendMessage s1 ("Custom saves directory: " ++ pathName folder)
          let s3 := { s2 with
            quick_save_location := some (pathChild (pathParent r) "quicksave.cogsav") }
          let s4 := appendMessage s3 "Quicksave file: quicksave.cogsav"
          generate_saves_list env s4
        else
          appendMessage (appendMessage s1 "Error: mkdir failed")
            "Failed to use the save location as a base file!"
    else noGameMessage s

/-- `_change_game` (lines 167-194); `dialog` is the path returned by the
file picker, `none` on cancellation. -/
def change_game (env : Env) (fs : FS) (dialog : Option PyPath) (s : SaverState) :
    SaverState × SelectResult :=
  match dialog with
  | none => (s, SelectResult.cancelled)
  | some selected =>
    let s1 := appendMessage s ("Selected " ++ pathName selected)
    if pyEndsWith (pathName selected) "PSstate" then
      let s2 := { s1 with save_location := some selected }
      (update_game env fs s2, SelectResult.selected)
    else
      let s2 := { s1 with save_location := none }
      (appendMessage s2 "ERROR: Please select only a storePS<gamename>PSstate file.",
        SelectResult.invalidSaveFileSelected)

/-- `_quick_save` (lines 196-210). -/
def quick_save (fs : FS) (s : SaverState) : FS × SaverState × OpStatus × List FsAction :=
  match s.save_location with
  | none =>
    (fs, appendMessage s "ERROR! Please select your game's save file first",
      OpStatus.noLiveSaveSelected, [])
  | some loc =>
    match s.quick_save_location with
    | none => (fs, s, OpStatus.noop, [])
    | some q =>
      match copy2 fs loc q with
      | some fs1 =>
        (fs1, appendMessage s "Quicksaved", OpStatus.quicksaved, [FsAction.copyFile loc q])
      | none =>
        (fs, appendMessage (appendMessage s "Error: copy failed") "Quicksave failed",
          OpStatus.quicksaveFailed, [FsAction.copyFile loc q])

/-- `_quick_load` (lines 212-228). -/
def quick_load (fs : FS) (s : SaverState) : FS × SaverState × OpStatus × List FsAction :=
  match s.save_location with
  | none =>
    (fs, appendMessage s "ERROR! Please select your game's save file first",
      OpStatus.noLiveSaveSelected, [])
  | some loc =>
    match s.quick_save_location with
    | none => (fs, appendMessage s "No quicksave found", OpStatus.noQuickSaveFound, [])
    | some q =>
      if (fs q).isSome then
        match copy2 fs q loc with
        | some fs1 =>
          (fs1, appendMessage s "Loaded", OpStatus.loaded, [FsAction.copyFile q loc])
        | none =>
          (fs, appendMessage (appendMessage s "Error: copy failed") "Load failed",
            OpStatus.loadFailed, [FsAction.copyFile q loc])
      else (fs, appendMessage s "No quicksave found", OpStatus.noQuickSaveFound, [])

/-- `open(path).read()` restricted to the `OSError` level (permission
failure or missing file), over the decoded-text filesystem: the view used
by the operations whose claims are conditioned on readable text content.
The byte-faithful read — including the `UnicodeDecodeError` that
`except OSError` at line 251 does not catch — is `openRead` below. -/
def readText (env : Env) (fs : FS) (p : PyPath) : Except String String :=
  if env.readFails p then Except.error "read error"
  else
    match fs p with
    | some content => Except.ok content
    | none => Except.error "No such file or directory"

/-- `_parse_save` (lines 230-264) over the decoded-text filesystem:
returns the updated state, the suggested name, and the file operations
attempted.  This view is total because its inputs are readable text by
construction; `parse_save_raw` below is the byte-faithful model on which
the decode failure path is visible. -/
def parse_save (env : Env) (fs : FS) (s : SaverState) : SaverState × String × List FsAction :=
  let s0 := appendMessage s "Parsing current save..."
  match s.save_location with
  | none => (s0, strftimeSaveStamp env.now, [])
  | some loc =>
    let step :=
      match readText env fs loc with
      | Except.error e => ((none : Option String), (none : Option String),
          appendMessage s0 ("Error parsing save: " ++ e))
      | Except.ok content =>
        ((reSearchNameField content.data).map String.mk,
          (reSearchSceneField content.data).map String.mk, s0)
    let timestamp := strftimeSaveStamp env.now
    let parts := step.1.toList ++ [timestamp] ++ step.2.1.toList
    let return_val := String.intercalate " " parts
    (appendMessage step.2.2 return_val, return_val, [FsAction.readFile loc])

/-- Strict UTF-8 decoding as CPython's `utf-8` codec performs it for
`open(..., encoding="utf-8")` at line 240: rejects stray continuation
bytes, invalid lead bytes, truncated sequences, overlong encodings,
surrogate code points and code points above U+10FFFF.  `none` is the
`UnicodeDecodeError` case. -/
def utf8Decode : List Nat → Option (List Char)
  | [] => some []
  | b :: rest =>
    if b < 0x80 then
      (utf8Decode rest).map (fun cs => Char.ofNat b :: cs)
    else if b < 0xC2 then none
    else if b < 0xE0 then
      match rest with
      | b1 :: rest1 =>
        if 0x80 ≤ b1 ∧ b1 < 0xC0 then
          (utf8Decode rest1).map
            (fun cs => Char.ofNat ((b - 0xC0) * 0x40 + (b1 - 0x80)) :: cs)
        else none
      | [] => none
    else if b < 0xF0 then
      match rest with
      | b1 :: b2 :: rest2 =>
        if (0x80 ≤ b1 ∧ b1 < 0xC0) ∧ (0x80 ≤ b2 ∧ b2 < 0xC0) then
          let cp := (b - 0xE0) * 0x1000 + (b1 - 0x80) * 0x40 + (b2 - 0x80)
          if cp < 0x800 then none
          else if 0xD800 ≤ cp ∧ cp ≤ 0xDFFF then none
          else (utf8Decode rest2).map (fun cs => Char.ofNat cp :: cs)
        else none
      | _ => none
    else if b < 0xF5 then
      match rest with
      | b1 :: b2 :: b3 :: rest3 =>
        if (0x80 ≤ b1 ∧ b1 < 0xC0) ∧ (0x80 ≤ b2 ∧ b2 < 0xC0) ∧ (0x80 ≤ b3 ∧ b3 < 0xC0) then
          let cp := (b - 0xF0) * 0x40000 + (b1 - 0x80) * 0x1000
            + (b2 - 0x80) * 0x40 + (b3 - 0x80)
          if cp < 0x10000 ∨ 0x10FFFF < cp then none
          else (utf8Decode rest3).map (fun cs => Char.ofNat cp :: cs)
        else none
      | _ => none
    else none

/-- Result of the `open`/`read` at lines 240-241 over raw bytes: the
decoded text, an `OSError` (caught at line 251), or a `UnicodeDecodeError`
(a `ValueError`, not an `OSError`, hence not caught). -/
inductive ReadOutcome where
  | ok (content : String)
  | osError (e : String)
  | decodeError
  deriving DecidableEq, Repr

/-- `open(path, "r", encoding="utf-8").read()` over the byte filesystem. -/
def openRead (env : Env) (bfs : ByteFS) (p : PyPath) : ReadOutcome :=
  if env.readFails p then ReadOutcome.osError "read error"
  else
    match bfs p with
    | none => ReadOutcome.osError "No such file or directory"
    | some bytes =>
      match utf8Decode bytes with
      | some cs => ReadOutcome.ok (String.mk cs)
      | none => ReadOutcome.decodeError

/-- `_parse_save` (lines 230-264) over the byte-level filesystem: the
byte-faithful model of its read path.  The `Except.error` case is an
uncaught `UnicodeDecodeError` propagating out of the method — line 251
catches only `OSError` — so the operation fails there; every other path
returns normally, with an `OSError` degrading to the timestamp fallback. -/
def parse_save_raw (env : Env) (bfs : ByteFS) (s : SaverState) :
    Except String (SaverState × String) × List FsAction :=
  let s0 := appendMessage s "Parsing current save..."
  match s.save_location with
  | none => (Except.ok (s0, strftimeSaveStamp env.now), [])
  | some loc =>
    match openRead env bfs loc with
    | ReadOutcome.decodeError =>
      (Except.error "UnicodeDecodeError", [FsAction.readFile loc])
    | ReadOutcome.osError e =>
      let timestamp := strftimeSaveStamp env.now
      let return_val := String.intercalate " " [timestamp]
      (Except.ok
        (appendMessage (appendMessage s0 ("Error parsing save: " ++ e)) return_val,
          return_val),
        [FsAction.readFile loc])
    | ReadOutcome.ok content =>
      let nameOpt := (reSearchNameField content.data).map String.mk
      let sceneOpt := (reSearchSceneField content.data).map String.mk
      let timestamp := strftimeSaveStamp env.now
      let parts := nameOpt.toList ++ [timestamp] ++ sceneOpt.toList
      let return_val := String.intercalate " " parts
      (Except.ok (appendMessage s0 return_val, return_val), [FsAction.readFile loc])

/-- `_create_perm_save` (lines 266-292); `dialog` is the target path from
the save dialog, `none` on cancellation. -/
def create_perm_save (env : Env) (fs : FS) (dialog : Option PyPath) (s : SaverState) :
    FS × SaverState × OpStatus × List FsAction :=
  match s.save_location with
  | none =>
    (fs, appendMessage s "ERROR! Please select your game's save file first",
      OpStatus.noLiveSaveSelected, [])
  | some loc =>
    let parsed := parse_save env fs s
    match dialog with
    | none => (fs, parsed.1, OpStatus.noop, parsed.2.2)
    | some target =>
      let save_file := fixTarget target
      match copy2 fs loc save_file with
      | some fs1 =>
        (fs1, appendMessage parsed.1 ("Saved to " ++ pathName save_file),
          OpStatus.saved, parsed.2.2 ++ [FsAction.copyFile loc save_file])
      | none =>
        (fs, appendMessage (appendMessage parsed.1 "Error: copy failed") "Save failed",
          OpStatus.saveFailed, parsed.2.2 ++ [FsAction.copyFile loc save_file])

/-- `_load_perm_save` (lines 294-319); `dialog` is the source path from the
open dialog, `none` on cancellation. -/
def load_perm_save (fs : FS) (dialog : Option PyPath) (s : SaverState) :
    FS × SaverState × OpStatus × List FsAction :=
  match s.save_location with
  | none =>
    (fs, appendMessage s "ERROR! Please select your game's save file first",
      OpStatus.noLiveSaveSelected, [])
  | some loc =>
    match dialog with
    | none => (fs, s, OpStatus.noop, [])
    | some src =>
      match copy2 fs src loc with
      | some fs1 =>
        (fs1, appendMessage s ("Loaded: " ++ pathName src),
          OpStatus.loaded, [FsAction.copyFile src loc])
      | none =>
        (fs, appendMessage (appendMessage s "Error: copy failed") "Error loading save",
          OpStatus.loadFailed, [FsAction.copyFile src loc])

/-! Concrete fixtures used by witnesses and counterexamples. -/

/-- An oracle where every OS call succeeds and resolution is the identity. -/
def envA : Env :=
  { dirExists := fun _ => true
    resolveFn := fun p => some p
    mkdirOk := fun _ => true
    dirEntries := fun _ => []
    readFails := fun _ => false
    now := ⟨2025, 10, 12, 14, 30⟩ }

/-- Like `envA` but the archive directory holds two entries. -/
def envB : Env := { envA with dirEntries := fun _ => ["a.cogsav", "b.txt"] }

/-- Like `envA` but every file read raises an `OSError`. -/
def envErr : Env := { envA with readFails := fun _ => true }

/-- Like `envA` but no directory exists. -/
def envNoDir : Env := { envA with dirExists := fun _ => false }

/-- An empty filesystem. -/
def fs0 : FS := fun _ => none

/-- A filesystem holding only the live save file. -/
def fsLive : FS := fun p => if p = ["home", "storePSgamePSstate"] then some "LIVE" else none

/-- A byte-level filesystem holding a valid-UTF-8 live save file. -/
def bfsLive : ByteFS :=
  fun p => if p = ["home", "storePSgamePSstate"] then some [76, 73, 86, 69] else none

/-- A byte-level filesystem whose live save file is the single byte `0xFF`,
which is not valid UTF-8. -/
def bfsBad : ByteFS :=
  fun p => if p = ["home", "storePSgamePSstate"] then some [255] else none

/-- Save content in which a `firstname` field occurs before a `name` field. -/
def mixedContent : String := "\"firstname\": \"Bob\", \"name\": \"Alice\""

/-- A filesystem whose live save file holds `mixedContent`. -/
def fsMixed : FS :=
  fun p => if p = ["home", "storePSgamePSstate"] then some mixedContent else none

/-- Save content holding both a `name` and a `sceneName` field. -/
def richContent : String := "x \"name\": \"Avery\" y \"sceneName\": \"chapter1\" z"

/-- A filesystem whose live save file holds `richContent`. -/
def fsRich : FS :=
  fun p => if p = ["home", "storePSgamePSstate"] then some richContent else none

/-- A session with a selected live save and derived paths. -/
def stateSel : SaverState :=
  { save_location := some ["home", "storePSgamePSstate"]
    save_folder := some ["home", "saves"]
    quick_save_location := some ["home", "quicksave.cogsav"]
    saves_list := []
    messages := [] }

/-- A session with no live save selected. -/
def stateEmpty : SaverState :=
  { save_location := none
    save_folder := none
    quick_save_location := none
    saves_list := []
    messages := [] }

/-- A session whose archive listing still holds a stale entry. -/
def stateStale : SaverState :=
  { save_location := some ["d", "storePSxPSstate"]
    save_folder := some ["d", "saves"]
    quick_save_location := none
    saves_list := [["d", "saves", "old.cogsav"]]
    messages := [] }

/-! Helper lemmas. -/

/-- `_generate_saves_list` only touches `saves_list` and `messages`. -/
theorem generate_saves_list_save_location (env : Env) (s : SaverState) :
    (generate_saves_list env s).save_location = s.save_location := by
  unfold generate_saves_list
  cases h : s.save_folder with
  | none => rfl
  | some folder => by_cases hd : env.dirExists folder <;> simp [hd]

/-- `_generate_saves_list` leaves `save_folder` unchanged. -/
theorem generate_saves_list_save_folder (env : Env) (s : SaverState) :
    (generate_saves_list env s).save_folder = s.save_folder := by
  unfold generate_saves_list
  cases h : s.save_folder with
  | none => exact h
  | some folder =>
    by_cases hd : env.dirExists folder
    · simp [hd]
    · simp [hd]; exact h

/-- `_generate_saves_list` leaves `quick_save_location` unchanged. -/
theorem generate_saves_list_quick_save (env : Env) (s : SaverState) :
    (generate_saves_list env s).quick_save_location = s.quick_save_location := by
  unfold generate_saves_list
  cases h : s.save_folder with
  | none => rfl
  | some folder => by_cases hd : env.dirExists folder <;> simp [hd]

/-- Claim C1 (counterexample): selecting a candidate whose filename does not
end in `PSstate` does not leave `save_location` unchanged — the prior
selection is discarded, not retained. -/
theorem change_game_invalid_counterexample :
    (change_game envA fs0 (some ["home", "notes.txt"]) stateSel).1.save_location
      ≠ stateSel.save_location := by decide

/-- Claim C1 (amended): `_change_game` on a candidate whose filename does not
end in `PSstate` reports the invalid-selection error, clears `save_location`
to `none`, and leaves `save_folder` and `quick_save_location` unchanged. -/
theorem change_game_invalid_clears_selection (env : Env) (fs : FS) (s : SaverState)
    (p : PyPath) (h : pyEndsWith (pathName p) "PSstate" = false) :
    (change_game env fs (some p) s).2 = SelectResult.invalidSaveFileSelected ∧
    (change_game env fs (some p) s).1.save_location = none ∧
    (change_game env fs (some p) s).1.save_folder = s.save_folder ∧
    (change_game env fs (some p) s).1.quick_save_location = s.quick_save_location := by
  simp [change_game, h, appendMessage]

/-- Witness for the amended C1 theorem at a concrete invalid candidate. -/
theorem change_game_invalid_clears_selection_witness :
    pyEndsWith (pathName ["home", "notes.txt"]) "PSstate" = false ∧
    (change_game envA fs0 (some ["home", "notes.txt"]) stateSel).2
      = SelectResult.invalidSaveFileSelected ∧
    (change_game envA fs0 (some ["home", "notes.txt"]) stateSel).1.save_folder
      = stateSel.save_folder :=
  ⟨by decide,
    (change_game_invalid_clears_selection envA fs0 stateSel ["home", "notes.txt"]
      (by decide)).1,
    (change_game_invalid_clears_selection envA fs0 stateSel ["home", "notes.txt"]
      (by decide)).2.2.1⟩

/-- Claim C2: when the live save path resolves to canonical form `r` (and the
archive directory can be created), `_update_game` derives the archive
directory `r.parent / "saves"` and the quick-save path
`r.parent / "quicksave.cogsav"`, storing the resolved path itself. -/
theorem update_game_derived_paths (env : Env) (fs : FS) (s : SaverState) (loc r : PyPath)
    (h1 : s.save_location = some loc) (h2 : (fs loc).isSome = true)
    (h3 : env.resolveFn loc = some r)
    (h4 : env.mkdirOk (pathParent r ++ ["saves"]) = true) :
    (update_game env fs s).save_location = some r ∧
    (update_game env fs s).save_folder = some (pathParent r ++ ["saves"]) ∧
    (update_game env fs s).quick_save_location = some (pathParent r ++ ["quicksave.cogsav"]) := by
  simp [update_game, h1, h2, h3, h4, generate_saves_list_save_location,
    generate_saves_list_save_folder, generate_saves_list_quick_save,
    appendMessage, pathChild]

/-- Witness for C2 at a concrete resolvable live save path. -/
theorem update_game_derived_paths_witness :
    (fsLive ["home", "storePSgamePSstate"]).isSome = true ∧
    (update_game envB fsLive stateSel).save_folder = some ["home", "saves"] ∧
    (update_game envB fsLive stateSel).quick_save_location
      = some ["home", "quicksave.cogsav"] :=
  ⟨by decide,
    (update_game_derived_paths envB fsLive stateSel _ _ rfl (by decide) rfl rfl).2.1,
    (update_game_derived_paths envB fsLive stateSel _ _ rfl (by decide) rfl rfl).2.2⟩

/-- Claim C3: with no live save selected, all four transfer operations report
`NoLiveSaveSelected`, attempt no file operation, and leave the filesystem
untouched. -/
theorem transfer_ops_require_live_save (env : Env) (fs : FS) (dialog : Option PyPath)
    (s : SaverState) (h : s.save_location = none) :
    ((quick_save fs s).2.2.1 = OpStatus.noLiveSaveSelected ∧
      (quick_save fs s).2.2.2 = [] ∧ (quick_save fs s).1 = fs) ∧
    ((quick_load fs s).2.2.1 = OpStatus.noLiveSaveSelected ∧
      (quick_load fs s).2.2.2 = [] ∧ (quick_load fs s).1 = fs) ∧
    ((create_perm_save env fs dialog s).2.2.1 = OpStatus.noLiveSaveSelected ∧
      (create_perm_save env fs dialog s).2.2.2 = [] ∧
      (create_perm_save env fs dialog s).1 = fs) ∧
    ((load_perm_save fs dialog s).2.2.1 = OpStatus.noLiveSaveSelected ∧
      (load_perm_save fs dialog s).2.2.2 = [] ∧ (load_perm_save fs dialog s).1 = fs) := by
  simp [quick_save, quick_load, create_perm_save, load_perm_save, h]

/-- Witness for C3 on the empty session. -/
theorem transfer_ops_require_live_save_witness :
    stateEmpty.save_location = none ∧
    (quick_save fs0 stateEmpty).2.2.1 = OpStatus.noLiveSaveSelected ∧
    (quick_load fs0 stateEmpty).2.2.1 = OpStatus.noLiveSaveSelected ∧
    (create_perm_save envA fs0 none stateEmpty).2.2.1 = OpStatus.noLiveSaveSelected ∧
    (load_perm_save fs0 none stateEmpty).2.2.1 = OpStatus.noLiveSaveSelected :=
  ⟨rfl,
    (transfer_ops_require_live_save envA fs0 none stateEmpty rfl).1.1,
    (transfer_ops_require_live_save envA fs0 none stateEmpty rfl).2.1.1,
    (transfer_ops_require_live_save envA fs0 none stateEmpty rfl).2.2.1.1,
    (transfer_ops_require_live_save envA fs0 none stateEmpty rfl).2.2.2.1⟩

/-- Claim C4: with a live save selected but no existing quick-save file,
`_quick_load` reports the benign `NoQuickSaveFound` status, performs no copy,
and leaves the live save (indeed the whole filesystem) untouched. -/
theorem quick_load_no_quicksave (fs : FS) (s : SaverState) (loc : PyPath)
    (h1 : s.save_location = some loc)
    (h2 : ∀ q, s.quick_save_location = some q → fs q = none) :
    (quick_load fs s).2.2.1 = OpStatus.noQuickSaveFound ∧
    (quick_load fs s).2.2.2 = [] ∧
    (quick_load fs s).1 = fs ∧
    (quick_load fs s).1 loc = fs loc := by
  cases hq : s.quick_save_location with
  | none => simp [quick_load, h1, hq]
  | some q =>
    have hfq := h2 q hq
    simp [quick_load, h1, hq, hfq]

/-- Witness for C4 on a session whose quick-save file is absent. -/
theorem quick_load_no_quicksave_witness :
    (quick_load fs0 stateSel).2.2.1 = OpStatus.noQuickSaveFound ∧
    (quick_load fs0 stateSel).1 = fs0 :=
  ⟨(quick_load_no_quicksave fs0 stateSel ["home", "storePSgamePSstate"] rfl
      (fun _ _ => rfl)).1,
    (quick_load_no_quicksave fs0 stateSel ["home", "storePSgamePSstate"] rfl
      (fun _ _ => rfl)).2.2.1⟩

/-- Claim C5: with a live save and quick-save path set and the live save file
present, `_quick_save` followed by `_quick_load` (both copies succeeding, no
external mutation in between) restores the live save file to its prior
content. -/
theorem quicksave_quickload_roundtrip (fs : FS) (s : SaverState) (loc q : PyPath)
    (h1 : s.save_location = some loc) (h2 : s.quick_save_location = some q)
    (h3 : (fs loc).isSome = true) :
    (quick_save fs s).2.2.1 = OpStatus.quicksaved ∧
    (quick_load (quick_save fs s).1 (quick_save fs s).2.1).2.2.1 = OpStatus.loaded ∧
    (quick_load (quick_save fs s).1 (quick_save fs s).2.1).1 loc = fs loc := by
  obtain ⟨b, hb⟩ := Option.isSome_iff_exists.mp h3
  simp [quick_save, quick_load, copy2, appendMessage, h1, h2, hb]

/-- Witness for C5 on a concrete session and live save file. -/
theorem quicksave_quickload_roundtrip_witness :
    (fsLive ["home", "storePSgamePSstate"]).isSome = true ∧
    (quick_load (quick_save fsLive stateSel).1 (quick_save fsLive stateSel).2.1).1
        ["home", "storePSgamePSstate"]
      = fsLive ["home", "storePSgamePSstate"] :=
  ⟨by decide,
    (quicksave_quickload_roundtrip fsLive stateSel ["home", "storePSgamePSstate"]
      ["home", "quicksave.cogsav"] rfl rfl (by decide)).2.2⟩

/-- `" ".join` of a single part is that part. -/
theorem intercalate_singleton (a : String) : String.intercalate " " [a] = a := rfl

/-- `" ".join` of two parts. -/
theorem intercalate_pair (a b : String) : String.intercalate " " [a, b] = a ++ " " ++ b := rfl

/-- `" ".join` of three parts. -/
theorem intercalate_triple (a b c : String) :
    String.intercalate " " [a, b, c] = a ++ " " ++ b ++ " " ++ c := rfl

/-- Claim C6 (counterexample): on live-save content that is not valid
UTF-8 — here the single byte `0xFF` — `f.read()` raises a
`UnicodeDecodeError`, which `except OSError` at line 251 does not catch,
so the name-derivation operation does fail the enclosing operation instead
of degrading to the timestamp fallback. -/
theorem parse_save_decode_failure_counterexample :
    utf8Decode [255] = none ∧
    (parse_save_raw envA bfsBad stateSel).1 = Except.error "UnicodeDecodeError" := by
  exact ⟨rfl, rfl⟩

/-- Claim C6 (amended): read errors that are `OSError`s — a failing read,
or a missing file — are swallowed by `_parse_save`: a side-channel message
is appended and the timestamp-only fallback is returned.  But the read
decodes the file as UTF-8 and only `OSError` is caught, so content that is
not valid UTF-8 raises an uncaught `UnicodeDecodeError` that does fail the
enclosing operation: the never-fails guarantee holds for OS-level read
errors, not for every content of the live save file. -/
theorem parse_save_raw_error_handling (env : Env) (bfs : ByteFS) (s : SaverState)
    (loc : PyPath) (h1 : s.save_location = some loc) :
    (env.readFails loc = true →
      (parse_save_raw env bfs s).1
        = Except.ok
            ({ s with messages := s.messages
                ++ ["Parsing current save...", "Error parsing save: read error",
                    strftimeSaveStamp env.now] },
              strftimeSaveStamp env.now)) ∧
    (env.readFails loc = false → bfs loc = none →
      (parse_save_raw env bfs s).1
        = Except.ok
            ({ s with messages := s.messages
                ++ ["Parsing current save...",
                    "Error parsing save: No such file or directory",
                    strftimeSaveStamp env.now] },
              strftimeSaveStamp env.now)) ∧
    (∀ bytes, env.readFails loc = false → bfs loc = some bytes →
      utf8Decode bytes = none →
      (parse_save_raw env bfs s).1 = Except.error "UnicodeDecodeError") := by
  refine ⟨fun hf => ?_, fun hf hb => ?_, fun bytes hf hb hd => ?_⟩
  · simp [parse_save_raw, openRead, h1, hf, appendMessage, intercalate_singleton]
  · simp [parse_save_raw, openRead, h1, hf, hb, appendMessage, intercalate_singleton]
  · simp [parse_save_raw, openRead, h1, hf, hb, hd]

/-- Witness for the amended C6 theorem: a failing read on a concrete
session degrades to the timestamp-only fallback with the error message
appended. -/
theorem parse_save_raw_error_handling_witness :
    envErr.readFails ["home", "storePSgamePSstate"] = true ∧
    (parse_save_raw envErr bfsLive stateSel).1
      = Except.ok
          ({ stateSel with messages :=
              ["Parsing current save...", "Error parsing save: read error",
                "25.10.12 14.30"] },
            "25.10.12 14.30") :=
  ⟨rfl,
    ((parse_save_raw_error_handling envErr bfsLive stateSel
        ["home", "storePSgamePSstate"] rfl).1 rfl).trans (by rfl)⟩

/-- Claim C7 (counterexample): on content where a `firstname` field occurs
before a `name` field, the extraction takes the `firstname` value — the
`name` field is not checked first across positions. -/
theorem name_field_not_preferred_counterexample :
    reSearchNameField mixedContent.data = some "Bob".data ∧
    reSearchNameField mixedContent.data ≠ some "Alice".data ∧
    (parse_save envA fsMixed stateSel).2.1 = "Bob 25.10.12 14.30" := by decide

/-- One scan step of the `name`/`firstname` search. -/
theorem reSearchNameField_step (c : Char) (cs : List Char) :
    reSearchNameField (c :: cs) =
      match searchStep (c :: cs) with
      | some v => some v
      | none => reSearchNameField cs := by
  simp only [reSearchNameField, searchStep]
  cases matchFieldAt "name".data (c :: cs) with
  | some v => rfl
  | none =>
    cases matchFieldAt "firstname".data (c :: cs) with
    | some v => rfl
    | none => rfl

/-- Claim C7 (amended): the extraction returns the captured value of the
leftmost start position at which either the `name` or the `firstname`
pattern matches (with `name` tried before `firstname` only within a single
position) — so whichever of the two fields occurs first in the content wins,
and `name` is preferred only when no earlier `firstname` occurrence exists. -/
theorem reSearchNameField_leftmost (i : Nat) : ∀ (s v : List Char),
    (∀ j, j < i → searchStep (s.drop j) = none) →
    searchStep (s.drop i) = some v →
    reSearchNameField s = some v := by
  induction i with
  | zero =>
    intro s v _ hi
    rw [List.drop_zero] at hi
    cases s with
    | nil => rw [(rfl : searchStep [] = none)] at hi; exact Option.noConfusion hi
    | cons c cs => rw [reSearchNameField_step, hi]
  | succ n ih =>
    intro s v hmin hi
    cases s with
    | nil => rw [List.drop_nil, (rfl : searchStep [] = none)] at hi; exact Option.noConfusion hi
    | cons c cs =>
      have h0 : searchStep (c :: cs) = none := by
        have := hmin 0 (Nat.succ_pos n)
        rwa [List.drop_zero] at this
      rw [reSearchNameField_step, h0]
      apply ih cs v
      · intro j hj
        have := hmin (j + 1) (Nat.succ_lt_succ hj)
        rwa [List.drop_succ_cons] at this
      · rwa [List.drop_succ_cons] at hi

/-- Witness for the amended C7 theorem at position zero of concrete content. -/
theorem reSearchNameField_leftmost_witness :
    searchStep "\"name\": \"A\"".data = some "A".data ∧
    reSearchNameField "\"name\": \"A\"".data = some "A".data :=
  ⟨by decide,
    reSearchNameField_leftmost 0 "\"name\": \"A\"".data "A".data
      (fun j hj => absurd hj (Nat.not_lt_zero j)) (by decide)⟩

/-- Claim C8: for readable content the suggested name is the space-separated
join, in order, of the extracted name (if found), the timestamp
`YY.MM.DD HH.MM`, and the extracted scene (if found); with neither field, or
with no live save selected, it is exactly the timestamp. -/
theorem parse_save_suggested_name (env : Env) (fs : FS) (s : SaverState) :
    (∀ loc content, s.save_location = some loc → env.readFails loc = false →
      fs loc = some content →
      ((∀ nm sc, reSearchNameField content.data = some nm →
          reSearchSceneField content.data = some sc →
          (parse_save env fs s).2.1
            = String.mk nm ++ " " ++ strftimeSaveStamp env.now ++ " " ++ String.mk sc) ∧
        (∀ nm, reSearchNameField content.data = some nm →
          reSearchSceneField content.data = none →
          (parse_save env fs s).2.1 = String.mk nm ++ " " ++ strftimeSaveStamp env.now) ∧
        (∀ sc, reSearchNameField content.data = none →
          reSearchSceneField content.data = some sc →
          (parse_save env fs s).2.1 = strftimeSaveStamp env.now ++ " " ++ String.mk sc) ∧
        (reSearchNameField content.data = none → reSearchSceneField content.data = none →
          (parse_save env fs s).2.1 = strftimeSaveStamp env.now))) ∧
    (s.save_location = none → (parse_save env fs s).2.1 = strftimeSaveStamp env.now) := by
  constructor
  · intro loc content h1 h2 h3
    have hr : readText env fs loc = Except.ok content := by simp [readText, h2, h3]
    refine ⟨fun nm sc hn hs => ?_, fun nm hn hs => ?_, fun sc hn hs => ?_, fun hn hs => ?_⟩ <;>
      simp [parse_save, h1, hr, hn, hs, intercalate_singleton, intercalate_pair,
        intercalate_triple]
  · intro h1
    simp [parse_save, h1, intercalate_singleton]

/-- Witness for C8 on concrete content holding both fields. -/
theorem parse_save_suggested_name_witness :
    reSearchNameField richContent.data = some "Avery".data ∧
    reSearchSceneField richContent.data = some "chapter1".data ∧
    (parse_save envA fsRich stateSel).2.1 = "Avery 25.10.12 14.30 chapter1" :=
  ⟨by decide, by decide, by
    have h := ((parse_save_suggested_name envA fsRich stateSel).1
      ["home", "storePSgamePSstate"] richContent rfl rfl rfl).1
      "Avery".data "chapter1".data (by decide) (by decide)
    exact h.trans (by decide)⟩

/-- Claim C9 (counterexample): when the archive directory does not exist,
`_generate_saves_list` does not produce an empty listing — it leaves the
previous (possibly non-empty) listing in place. -/
theorem saves_list_stale_counterexample :
    (generate_saves_list envNoDir stateStale).saves_list = [["d", "saves", "old.cogsav"]] ∧
    (generate_saves_list envNoDir stateStale).saves_list ≠ [] := by decide

/-- Claim C9 (amended): when the archive directory exists, the listing is
exactly the directory's entries whose filename ends with `.cogsav`
(case-sensitive suffix match, non-recursive); when it does not exist, the
operation is a no-op that retains the prior listing (empty in the initial
state) rather than an error. -/
theorem generate_saves_list_spec (env : Env) (s : SaverState) (folder : PyPath)
    (h : s.save_folder = some folder) :
    (env.dirExists folder = true →
      (generate_saves_list env s).saves_list
        = ((env.dirEntries folder).filter globCogsav).map (pathChild folder)) ∧
    (env.dirExists folder = false →
      (generate_saves_list env s).saves_list = s.saves_list) ∧
    (∀ n, pathChild folder n
        ∈ ((env.dirEntries folder).filter globCogsav).map (pathChild folder)
      ↔ (n ∈ env.dirEntries folder ∧ pyEndsWith n ".cogsav" = true)) := by
  have hinj : Function.Injective (pathChild folder) := by
    intro a b hab
    have h2 : folder ++ [a] = folder ++ [b] := hab
    have h3 := List.append_cancel_left h2
    simpa using h3
  refine ⟨fun hd => ?_, fun hd => ?_, fun n => ?_⟩
  · simp [generate_saves_list, h, hd]
  · simp [generate_saves_list, h, hd]
  · rw [List.mem_map_of_injective hinj, List.mem_filter]
    simp [globCogsav]

/-- Witness for the amended C9 theorem on a directory holding `a.cogsav` and
`b.txt`. -/
theorem generate_saves_list_spec_witness :
    envB.dirExists ["home", "saves"] = true ∧
    (generate_saves_list envB stateSel).saves_list
      = ((envB.dirEntries ["home", "saves"]).filter globCogsav).map
          (pathChild ["home", "saves"]) ∧
    ((envB.dirEntries ["home", "saves"]).filter globCogsav).map (pathChild ["home", "saves"])
      = [["home", "saves", "a.cogsav"]] :=
  ⟨rfl, (generate_saves_list_spec envB stateSel ["home", "saves"] rfl).1 rfl, by decide⟩

/-- `str.rfind('.')` really points at a dot. -/
theorem lastDotIndex_dot (l : List Char) : ∀ i, lastDotIndex l = some i →
    l[i]? = some '.' := by
  induction l with
  | nil => intro i h; exact Option.noConfusion h
  | cons c cs ih =>
    intro i h
    unfold lastDotIndex at h
    cases hcs : lastDotIndex cs with
    | some k =>
      rw [hcs] at h
      obtain rfl : k + 1 = i := by injection h
      simpa using ih k hcs
    | none =>
      rw [hcs] at h
      by_cases hc : c = '.'
      · rw [if_pos hc] at h
        obtain rfl : 0 = i := by injection h
        simp [hc]
      · rw [if_neg hc] at h
        exact Option.noConfusion h

/-- `str.rfind('.')` finds the position of the last dot. -/
theorem lastDotIndex_eq_of (l : List Char) : ∀ i, l[i]? = some '.' →
    (∀ j, i < j → l[j]? ≠ some '.') → lastDotIndex l = some i := by
  induction l with
  | nil => intro i h _; simp at h
  | cons c cs ih =>
    intro i hdot hafter
    cases i with
    | zero =>
      have hc : c = '.' := by simpa using hdot
      have hnone : lastDotIndex cs = none := by
        cases hcs : lastDotIndex cs with
        | none => rfl
        | some k =>
          exfalso
          have hk := lastDotIndex_dot cs k hcs
          exact hafter (k + 1) (Nat.succ_pos k) (by simpa using hk)
      unfold lastDotIndex
      rw [hnone, if_pos hc]
    | succ m =>
      have hdot' : cs[m]? = some '.' := by simpa using hdot
      have hafter' : ∀ j, m < j → cs[j]? ≠ some '.' := by
        intro j hj hcontra
        exact hafter (j + 1) (Nat.succ_lt_succ hj) (by simpa using hcontra)
      unfold lastDotIndex
      rw [ih m hdot' hafter']

/-- Claim C10 (counterexample): a target name that does contain a dot in its
final component can still have `.cogsav` appended — a trailing dot does not
count as an existing suffix. -/
theorem create_save_extension_counterexample :
    ('.' ∈ "archive.".data) ∧
    finalizeSaveName "archive." = "archive..cogsav" ∧
    finalizeSaveName "archive." ≠ "archive." := by decide

/-- Claim C10 (amended): `.cogsav` is appended exactly when the final
component's Python-style suffix is empty; the suffix is the segment from the
last dot, and counts only when that dot is interior (neither the first nor
the last character).  Hence a name whose last dot is interior — such as the
default timestamp name ending in `HH.MM` — is saved without the archive
extension, while names whose dots are only leading or trailing still get
`.cogsav` appended. -/
theorem create_save_extension_rule (n : String) :
    (finalizeSaveName n = n ++ ".cogsav" ↔ pySuffix n.data = []) ∧
    (∀ i, 0 < i → i + 1 < n.data.length → n.data[i]? = some '.' →
      (∀ j, j < n.data.length → i < j → n.data[j]? ≠ some '.') →
      finalizeSaveName n = n) := by
  constructor
  · constructor
    · intro hfin
      by_cases hs : pySuffix n.data = []
      · exact hs
      · exfalso
        rw [finalizeSaveName, if_neg hs] at hfin
        have hlen : n.length = (n ++ ".cogsav").length := congrArg String.length hfin
        rw [String.length_append] at hlen
        have h7 : (".cogsav" : String).length = 7 := rfl
        omega
    · intro hs
      rw [finalizeSaveName, if_pos hs]
  · intro i hi0 hi1 hdot hafter
    have hlast : lastDotIndex n.data = some i := by
      apply lastDotIndex_eq_of n.data i hdot
      intro j hij
      by_cases hj : j < n.data.length
      · exact hafter j hj hij
      · simp [List.getElem?_eq_none (Nat.le_of_not_lt hj)]
    have hs : pySuffix n.data ≠ [] := by
      unfold pySuffix
      rw [hlast]
      show (if 0 < i ∧ i + 1 < n.data.length then n.data.drop i else []) ≠ []
      rw [if_pos ⟨hi0, hi1⟩]
      intro hcontra
      rw [List.drop_eq_nil_iff] at hcontra
      omega
    rw [finalizeSaveName, if_neg hs]

/-- Witness for the amended C10 theorem: the default timestamp-shaped name
keeps its `.30` suffix, while a dot-free name gets `.cogsav` appended. -/
theorem create_save_extension_rule_witness :
    finalizeSaveName "25.10.12 14.30" = "25.10.12 14.30" ∧
    finalizeSaveName "gamestate" = "gamestate" ++ ".cogsav" :=
  ⟨(create_save_extension_rule "25.10.12 14.30").2 11 (by decide) (by decide) (by decide)
      (by decide),
    (create_save_extension_rule "gamestate").1.mpr (by decide)⟩

end CoGSaver
